import Mathlib

/-!
Verification development for the `why` messaging service backend.

The embedding follows the Go sources: the authorization middleware
(`internal/api/middleware/auth.go`), the auth and message handlers
(`internal/api/handlers`), and the request/response models
(`internal/models/models.go`).  The `internal/auth` package (JWT token
service and bcrypt credential hasher) is not among the provided sources —
only its test file is — so those two components are modelled from the
spec (§4.1, §4.2), with cryptographic primitives represented symbolically:
a MAC signature is the pair of the signed payload and the key, and a
bcrypt digest is the pair of the password and the salt.  External inputs
that the handlers receive from collaborators (the JSON binder's verdict,
the database round-trip outcome) are passed to the embedded handlers as
explicit arguments.
-/

namespace Why

/-! ### Token Service (modelled from the spec) -/

/-- Modelled from the spec: the claims carried by a token — `subjectId`
(`UserID` in the test file), `email`, `issuedAt`, `expiresAt`
(spec §3 "Token Claims", corroborated by the `Claims` struct used in the
auth package's tests). Times are seconds as natural numbers. -/
structure Claims where
  userID : String
  email : String
  issuedAt : Nat
  expiresAt : Nat
deriving DecidableEq, Repr

/-- Modelled from the spec: an HMAC signature, represented symbolically as
the signed payload together with the signing key.  Two signatures are
equal exactly when both the payload and the key agree, which captures the
ideal-MAC assumption the spec relies on ("a token signed with secret A
must be rejected when validated with secret B, deterministically and
always", §4.2). -/
structure MacSig where
  payload : Claims
  key : String
deriving DecidableEq, Repr

/-- Modelled from the spec: a signed token — structured claims plus a
signature over them (spec §4.2 "header + claims + signature"). -/
structure Token where
  claims : Claims
  sig : MacSig
deriving DecidableEq, Repr

/-- Modelled from the spec: the fixed token lifetime ("a constant, e.g.
24h", spec §4.2), in seconds. -/
def tokenLifetime : Nat := 24 * 60 * 60

/-- Modelled from the spec: `issue(subjectId, email, secret)` —
`GenerateToken` in the auth package.  Sets `issuedAt = now`,
`expiresAt = now + fixedLifetime` and signs the claims with the shared
secret (spec §4.2). -/
def GenerateToken (userID email secret : String) (now : Nat) : Token :=
  let c : Claims := ⟨userID, email, now, now + tokenLifetime⟩
  ⟨c, ⟨c, secret⟩⟩

/-- Modelled from the spec: `validate(token, secret)` — `ValidateToken` in
the auth package.  Verifies the signature against `secret` first (reject
on mismatch), then checks `expiresAt > now` (reject if expired), and
returns the decoded claims on success (spec §4.2). -/
def ValidateToken (t : Token) (secret : String) (now : Nat) : Option Claims :=
  if t.sig = MacSig.mk t.claims secret then
    if now < t.claims.expiresAt then some t.claims else none
  else none

/-! ### Credential Hasher (modelled from the spec) -/

/-- Modelled from the spec: a bcrypt digest, represented symbolically as
the hashed password together with the salt it was hashed under.  Equality
of digests coincides with equality of both components, which captures the
one-way, collision-free idealization of §4.1. -/
structure BcryptDigest where
  password : String
  salt : String
deriving DecidableEq, Repr

/-- Modelled from the spec: the self-describing encoded output of `hash`
— it embeds the salt so that verification needs no side channel
(spec §4.1). -/
structure HashedCredential where
  salt : String
  digest : BcryptDigest
deriving DecidableEq, Repr

/-- Modelled from the spec: `hash(password)` — `HashPassword` in the auth
package.  The fresh random salt drawn by bcrypt on each call is passed
explicitly as the `salt` argument (spec §4.1: "fresh random salt per
call"). -/
def HashPassword (password salt : String) : HashedCredential :=
  ⟨salt, ⟨password, salt⟩⟩

/-- Modelled from the spec: `verify(password, hashed)` — `CheckPassword`
in the auth package.  Recomputes the digest under the stored salt and
compares (spec §4.1). -/
def CheckPassword (password : String) (h : HashedCredential) : Bool :=
  decide (h.digest = BcryptDigest.mk password h.salt)

/-! ### Claims about the token service and the hasher -/

/-- C1: validating a token generated with secret `s` under the same
secret succeeds and returns the `UserID` and `Email` that were put in
unchanged, while validating it under any different secret `s2` fails, at
every validation time. -/
theorem generate_validate_roundtrip (userID email s s2 : String) (now n2 : Nat)
    (hs : s2 ≠ s) :
    (∃ c, ValidateToken (GenerateToken userID email s now) s now = some c ∧
      c.userID = userID ∧ c.email = email)
    ∧ ValidateToken (GenerateToken userID email s now) s2 n2 = none := by
  constructor
  · refine ⟨⟨userID, email, now, now + tokenLifetime⟩, ?_, rfl, rfl⟩
    simp [ValidateToken, GenerateToken, tokenLifetime]
  · simp [ValidateToken, GenerateToken, MacSig.mk.injEq]
    intro h
    exact absurd h.symm hs

/-- C1 witness: a concrete round trip at user "u-1", email "a@x.com",
secret "s", wrong secret "s2". -/
theorem generate_validate_roundtrip_witness :
    (∃ c, ValidateToken (GenerateToken "u-1" "a@x.com" "s" 0) "s" 0 = some c ∧
      c.userID = "u-1" ∧ c.email = "a@x.com")
    ∧ ValidateToken (GenerateToken "u-1" "a@x.com" "s" 0) "s2" 5 = none :=
  generate_validate_roundtrip "u-1" "a@x.com" "s" "s2" 0 5 (by decide)

/-- C7: a token whose `expiresAt` lies strictly before the validation
time is rejected under every secret, the signing secret included. -/
theorem validate_rejects_expired (t : Token) (secret : String) (now : Nat)
    (h : t.claims.expiresAt < now) :
    ValidateToken t secret now = none := by
  unfold ValidateToken
  have hnot : ¬ now < t.claims.expiresAt := Nat.not_lt.mpr (Nat.le_of_lt h)
  split
  · simp [hnot]
  · rfl

/-- C7 witness: the token issued at time 0 with secret "s" is rejected at
time 86401 (one second past its 24h expiry) even under secret "s". -/
theorem validate_rejects_expired_witness :
    ValidateToken (GenerateToken "u-1" "a@x.com" "s" 0) "s" 86401 = none :=
  validate_rejects_expired (GenerateToken "u-1" "a@x.com" "s" 0) "s" 86401 (by decide)

/-- C8: verifying a password against its own hash succeeds; verifying a
different password against that hash fails; and hashing the same password
under two distinct fresh salts yields distinct encoded outputs. -/
theorem hash_check_properties (p p1 p2 salt s1 s2 : String)
    (hp : p1 ≠ p2) (hs : s1 ≠ s2) :
    CheckPassword p (HashPassword p salt) = true
    ∧ CheckPassword p1 (HashPassword p2 salt) = false
    ∧ HashPassword p s1 ≠ HashPassword p s2 := by
  refine ⟨by simp [CheckPassword, HashPassword], ?_, ?_⟩
  · simp [CheckPassword, HashPassword, BcryptDigest.mk.injEq]
    intro h
    exact absurd h.symm hp
  · simp [HashPassword, HashedCredential.mk.injEq]
    intro h
    exact absurd h hs

/-- C8 witness: concrete instances of all three conjuncts with passwords
"pw", "other" and salts "s1", "s2". -/
theorem hash_check_properties_witness :
    CheckPassword "pw" (HashPassword "pw" "s1") = true
    ∧ CheckPassword "pw" (HashPassword "other" "s1") = false
    ∧ HashPassword "pw" "s1" ≠ HashPassword "pw" "s2" :=
  hash_check_properties "pw" "pw" "other" "s1" "s1" "s2" (by decide) (by decide)

/-! ### Authorization Gate (`internal/api/middleware/auth.go`) -/

/-- The four request-handling outcomes of `AuthMiddleware`; the first
three all answer 401 at the HTTP boundary, each with its own error text
("authorization header required", "invalid authorization header format",
"invalid or expired token"). -/
inductive GateOutcome
  | missingHeader
  | invalidFormat
  | invalidToken
  | authorized (userID email : String)
deriving DecidableEq, Repr

/-- Splits a character list at its first space: the characters before it
and the characters after it, or `none` when no space occurs. -/
def splitFirstSpace : List Char → Option (List Char × List Char)
  | [] => none
  | c :: cs =>
    if c = ' ' then some ([], cs)
    else
      match splitFirstSpace cs with
      | none => none
      | some (l, r) => some (c :: l, r)

/-- Go's `strings.SplitN(s, " ", 2)`: the part before the first space and
the whole remainder after it, or the one-element list `[s]` when `s`
contains no space. -/
def goSplitN2 (s : String) : List String :=
  match splitFirstSpace s.data with
  | none => [s]
  | some (l, r) => [String.mk l, String.mk r]

/-- `AuthMiddleware` from the middleware source, as a function of the
request's `Authorization` header value (`""` when the header is absent —
Gin's `GetHeader` returns the empty string then).  The call
`auth.ValidateToken(token, cfg.JWTSecret)` is abstracted as the
`validate` argument; the middleware only branches on whether it returns
claims or an error, and on success stores `claims.UserID` and
`claims.Email` in the request context. -/
def AuthMiddleware (validate : String → Option Claims) (authHeader : String) :
    GateOutcome :=
  if authHeader = "" then .missingHeader
  else
    match goSplitN2 authHeader with
    | [scheme, tok] =>
      if scheme = "Bearer" then
        match validate tok with
        | some claims => .authorized claims.userID claims.email
        | none => .invalidToken
      else .invalidFormat
    | _ => .invalidFormat

theorem splitFirstSpace_of_not_mem (l : List Char) (h : ' ' ∉ l) :
    splitFirstSpace l = none := by
  induction l with
  | nil => rfl
  | cons c cs ih =>
    have hc : ¬ c = ' ' := fun hc => h (hc ▸ List.mem_cons_self c cs)
    have hcs : ' ' ∉ cs := fun hm => h (List.mem_cons_of_mem c hm)
    simp [splitFirstSpace, hc, ih hcs]

theorem splitFirstSpace_append (l₁ l₂ : List Char) (h : ' ' ∉ l₁) :
    splitFirstSpace (l₁ ++ ' ' :: l₂) = some (l₁, l₂) := by
  induction l₁ with
  | nil => simp [splitFirstSpace]
  | cons c cs ih =>
    have hc : ¬ c = ' ' := fun hc => h (hc ▸ List.mem_cons_self c cs)
    have hcs : ' ' ∉ cs := fun hm => h (List.mem_cons_of_mem c hm)
    simp [splitFirstSpace, hc, ih hcs]

theorem goSplitN2_of_no_space (s : String) (h : ' ' ∉ s.data) :
    goSplitN2 s = [s] := by
  simp [goSplitN2, splitFirstSpace_of_not_mem s.data h]

theorem goSplitN2_space_append (p t : String) (hp : ' ' ∉ p.data) :
    goSplitN2 (p ++ " " ++ t) = [p, t] := by
  have hd : (p ++ " " ++ t).data = p.data ++ ' ' :: t.data := by
    simp [String.data_append]
  simp [goSplitN2, hd, splitFirstSpace_append p.data t.data hp]

theorem goSplitN2_bearer (t : String) :
    goSplitN2 ("Bearer " ++ t) = ["Bearer", t] := by
  have h : "Bearer " ++ t = "Bearer" ++ " " ++ t := rfl
  rw [h, goSplitN2_space_append]
  decide

/-- On a header of the exact shape `Bearer <token>` whose token the token
service accepts, the gate authorizes the request with the `UserID` and
`Email` taken from the validated claims. -/
theorem authMiddleware_authorized (validate : String → Option Claims)
    (t : String) (c : Claims) (hv : validate t = some c) :
    AuthMiddleware validate ("Bearer " ++ t) = .authorized c.userID c.email := by
  have hne : "Bearer " ++ t ≠ "" := by
    intro h
    have : ("Bearer " ++ t).data = [] := by rw [h]
    simp [String.data_append] at this
  simp [AuthMiddleware, hne, goSplitN2_bearer, hv]

/-- C3 counterexample: with a validator that accepts no token (as a
secret with no valid tokens in circulation), the header `"Bearer "` —
missing token — and the header `"Bearer a b"` — extra segments — are both
rejected as token-validation rejections, not as format rejections, contrary
to the claim. -/
theorem authHeader_format_counterexample :
    AuthMiddleware (fun _ => none) "Bearer " = .invalidToken
    ∧ AuthMiddleware (fun _ => none) "Bearer a b" = .invalidToken
    ∧ AuthMiddleware (fun _ => none) "Bearer " ≠ .invalidFormat
    ∧ AuthMiddleware (fun _ => none) "Bearer a b" ≠ .invalidFormat := by
  refine ⟨?_, ?_, ?_, ?_⟩ <;> decide

/-- C3 (amended): an absent header is the missing-header rejection; a
header containing no space at all, or whose first space-separated segment
is not the exact case-sensitive literal "Bearer", is a format rejection;
but every header of the shape "Bearer" + one space + remainder passes the
format check — even when the remainder is empty or contains further
spaces (extra segments) — and is rejected as a token-validation rejection
when that remainder is not a valid token.  All rejections produce 401 at
the HTTP boundary. -/
theorem authHeader_format_classification (validate : String → Option Claims)
    (s t : String) (hs : ' ' ∉ s.data) (hsne : s ≠ "") (hsb : s ≠ "Bearer")
    (hv : validate t = none) :
    AuthMiddleware validate "" = .missingHeader
    ∧ AuthMiddleware validate s = .invalidFormat
    ∧ AuthMiddleware validate (s ++ " " ++ t) = .invalidFormat
    ∧ AuthMiddleware validate ("Bearer " ++ t) = .invalidToken := by
  refine ⟨rfl, ?_, ?_, ?_⟩
  · simp [AuthMiddleware, hsne, goSplitN2_of_no_space s hs]
  · have hne : s ++ " " ++ t ≠ "" := by
      intro h
      have : (s ++ " " ++ t).data = [] := by rw [h]
      simp [String.data_append] at this
    simp [AuthMiddleware, hne, goSplitN2_space_append s t hs, hsb]
  · have hne : "Bearer " ++ t ≠ "" := by
      intro h
      have : ("Bearer " ++ t).data = [] := by rw [h]
      simp [String.data_append] at this
    simp [AuthMiddleware, hne, goSplitN2_bearer, hv]

/-- C3 amended-claim witness: the concrete deviant headers "bearer",
"bearer x y" (wrong case) and "Bearer x y" (extra segments) under a
validator that accepts nothing. -/
theorem authHeader_format_classification_witness :
    AuthMiddleware (fun _ => none) "" = .missingHeader
    ∧ AuthMiddleware (fun _ => none) "bearer" = .invalidFormat
    ∧ AuthMiddleware (fun _ => none) ("bearer" ++ " " ++ "x y") = .invalidFormat
    ∧ AuthMiddleware (fun _ => none) ("Bearer " ++ "x y") = .invalidToken :=
  authHeader_format_classification (fun _ => none) "bearer" "x y"
    (by decide) (by decide) (by decide) rfl

/-! ### Data model (`internal/models/models.go`) -/

/-- A row of the `messages` table / the `Message` model.  Timestamps are
seconds as natural numbers; the database-generated `id` is a string. -/
structure MessageRow where
  id : String
  userID : String
  content : String
  mediaURLs : List String
  createdAt : Nat
  updatedAt : Nat
deriving DecidableEq, Repr

/-- A row of the `replies` table / the `Reply` model. -/
structure ReplyRow where
  id : String
  messageID : String
  userID : String
  content : String
  mediaURLs : List String
  createdAt : Nat
  updatedAt : Nat
deriving DecidableEq, Repr

/-- A row of the `users` table / the `User` model.  The stored password
hash is the hasher's encoded output. -/
structure UserRow where
  id : String
  email : String
  passwordHash : HashedCredential
  createdAt : Nat
  updatedAt : Nat
deriving DecidableEq, Repr

/-- A client's POST /messages (or /replies) JSON body as sent on the
wire: the two fields of `CreateMessageRequest` plus a possible extra
`user_id` field the client may have included.  The target Go structs
have no `user_id` field, so binding discards it. -/
structure CreateMessageBody where
  content : String
  mediaURLs : List String
  userId : Option String
deriving DecidableEq, Repr

/-- `CreateMessageRequest` from `models.go`: `content` (with
`binding:"required"`) and `media_urls`. -/
structure CreateMessageRequest where
  content : String
  mediaURLs : List String
deriving DecidableEq, Repr

/-- `CreateReplyRequest` from `models.go`: same shape as
`CreateMessageRequest`. -/
structure CreateReplyRequest where
  content : String
  mediaURLs : List String
deriving DecidableEq, Repr

/-- Gin's `ShouldBindJSON` into `CreateMessageRequest`: fails when the
JSON is malformed (`jsonOk = false`) or when the `required` validator
fails, i.e. `content` is the zero-value empty string.  `required` does
not trim, so whitespace-only content passes.  A client-supplied
`user_id` body field does not bind: the struct has no such field. -/
def bindCreateMessage (jsonOk : Bool) (body : CreateMessageBody) :
    Option CreateMessageRequest :=
  if jsonOk = true ∧ body.content ≠ "" then some ⟨body.content, body.mediaURLs⟩
  else none

/-- Gin's `ShouldBindJSON` into `CreateReplyRequest`, identical to the
message case. -/
def bindCreateReply (jsonOk : Bool) (body : CreateMessageBody) :
    Option CreateReplyRequest :=
  if jsonOk = true ∧ body.content ≠ "" then some ⟨body.content, body.mediaURLs⟩
  else none

/-! ### Message handlers (`internal/api/handlers/messages.go`) -/

/-- `CreateMessage`: `ctxUserID` is the `user_id` value the gate stored in
the request context; `newID` and `now` stand for the id and timestamps
the database generates for the inserted row (`RETURNING ...`);
`insertOk` is the insert round trip's verdict (the handler maps a failed
insert to 500).  Returns the HTTP status and the messages table after
the request. -/
def CreateMessage (ctxUserID : String) (jsonOk insertOk : Bool)
    (body : CreateMessageBody) (db : List MessageRow) (newID : String) (now : Nat) :
    Nat × List MessageRow :=
  match bindCreateMessage jsonOk body with
  | none => (400, db)
  | some req =>
    if insertOk then
      (201, db ++ [⟨newID, ctxUserID, req.content, req.mediaURLs, now, now⟩])
    else (500, db)

/-- `CreateReply`: as `CreateMessage`, with the parent `messageID` taken
from the route path parameter. -/
def CreateReply (messageID ctxUserID : String) (jsonOk insertOk : Bool)
    (body : CreateMessageBody) (db : List ReplyRow) (newID : String) (now : Nat) :
    Nat × List ReplyRow :=
  match bindCreateReply jsonOk body with
  | none => (400, db)
  | some req =>
    if insertOk then
      (201, db ++ [⟨newID, messageID, ctxUserID, req.content, req.mediaURLs, now, now⟩])
    else (500, db)

/-- `ORDER BY created_at DESC` as a relation on message rows. -/
def msgDesc (a b : MessageRow) : Prop := b.createdAt ≤ a.createdAt

instance : DecidableRel msgDesc := fun a b =>
  inferInstanceAs (Decidable (b.createdAt ≤ a.createdAt))

instance : IsTotal MessageRow msgDesc :=
  ⟨fun a b => Nat.le_total b.createdAt a.createdAt⟩

instance : IsTrans MessageRow msgDesc :=
  ⟨fun _ _ _ hab hbc => Nat.le_trans hbc hab⟩

/-- `ORDER BY created_at ASC` as a relation on reply rows. -/
def replyAsc (a b : ReplyRow) : Prop := a.createdAt ≤ b.createdAt

instance : DecidableRel replyAsc := fun a b =>
  inferInstanceAs (Decidable (a.createdAt ≤ b.createdAt))

instance : IsTotal ReplyRow replyAsc :=
  ⟨fun a b => Nat.le_total a.createdAt b.createdAt⟩

instance : IsTrans ReplyRow replyAsc :=
  ⟨fun _ _ _ hab hbc => Nat.le_trans hab hbc⟩

/-- `ListMessages`: the query
`SELECT ... FROM messages ORDER BY created_at DESC LIMIT 50`, modelled as
a stable sort by descending `created_at` followed by taking the first
50 rows. -/
def ListMessages (db : List MessageRow) : List MessageRow :=
  (List.insertionSort msgDesc db).take 50

/-- `ListReplies`: the query
`SELECT ... FROM replies WHERE message_id = $1 ORDER BY created_at ASC`
— no `LIMIT` clause. -/
def ListReplies (messageID : String) (db : List ReplyRow) : List ReplyRow :=
  List.insertionSort replyAsc (db.filter (fun r => r.messageID == messageID))

/-! ### Auth handlers (`internal/api/handlers/auth.go`) -/

/-- An HTTP response of the auth handlers: the status, the `error` field
of the JSON body (`none` on success), and the issued token if any. -/
structure HResp where
  status : Nat
  err : Option String
  token : Option Token
deriving DecidableEq, Repr

/-- The Identity Store's verdict on `INSERT INTO users ...`: the new row
(from `RETURNING`), a uniqueness conflict on `email`, or any other store
failure (e.g. a broken connection). -/
inductive InsertUserResult
  | ok (u : UserRow)
  | uniqueViolation
  | connFailure
deriving DecidableEq, Repr

/-- The Identity Store's verdict on `SELECT ... FROM users WHERE email = $1`:
the row, `sql.ErrNoRows`, or any other store failure. -/
inductive LookupUserResult
  | found (u : UserRow)
  | noRows
  | dbFailure
deriving DecidableEq, Repr

/-- `Signup`: `bindOk` is `ShouldBindJSON`'s verdict on `SignupRequest`
(the `required,email` / `required,min=8` validators run inside it; its
dynamic error text is modelled as "binding error"); `salt` is the fresh
salt bcrypt draws inside `auth.HashPassword` (which cannot fail in the
symbolic model, so the handler's hash-failure 500 branch is
unreachable); `insert` is the Identity Store round trip.  The source
maps every insert error — without inspecting it — to
409 "email already exists". -/
def Signup (bindOk : Bool) (password salt : String) (insert : InsertUserResult)
    (secret : String) (now : Nat) : HResp :=
  if bindOk = false then ⟨400, some "binding error", none⟩
  else
    let _hashed := HashPassword password salt
    match insert with
    | .ok u => ⟨201, none, some (GenerateToken u.id u.email secret now)⟩
    | .uniqueViolation => ⟨409, some "email already exists", none⟩
    | .connFailure => ⟨409, some "email already exists", none⟩

/-- `Login`: `bindOk` as in `Signup`; `lookup` is the select-by-email
round trip; the password check is `auth.CheckPassword` against the
stored hash. -/
def Login (bindOk : Bool) (password : String) (lookup : LookupUserResult)
    (secret : String) (now : Nat) : HResp :=
  if bindOk = false then ⟨400, some "binding error", none⟩
  else
    match lookup with
    | .noRows => ⟨401, some "invalid email or password", none⟩
    | .dbFailure => ⟨500, some "login failed", none⟩
    | .found u =>
      if CheckPassword password u.passwordHash then
        ⟨200, none, some (GenerateToken u.id u.email secret now)⟩
      else ⟨401, some "invalid email or password", none⟩

/-! ### Route table (`NewRouter`, package `api`) -/

/-- The eight routes `NewRouter` registers under the `/api/v1` group:
signup and login, the three read-only routes, and the three routes of
the `protected` sub-group. -/
inductive Route
  | signupR
  | loginR
  | listMessagesR
  | getMessageR
  | listRepliesR
  | createMessageR
  | createReplyR
  | uploadMediaR
deriving DecidableEq, Repr

/-- The HTTP method and path pattern `NewRouter` registers each route
under. -/
def routePattern : Route → String × String
  | .signupR => ("POST", "/api/v1/signup")
  | .loginR => ("POST", "/api/v1/login")
  | .listMessagesR => ("GET", "/api/v1/messages")
  | .getMessageR => ("GET", "/api/v1/messages/:id")
  | .listRepliesR => ("GET", "/api/v1/messages/:id/replies")
  | .createMessageR => ("POST", "/api/v1/messages")
  | .createReplyR => ("POST", "/api/v1/messages/:id/replies")
  | .uploadMediaR => ("POST", "/api/v1/media")

/-- Whether `NewRouter` registers the route inside the `protected`
sub-group — the only group that installs
`middleware.AuthMiddleware(cfg)`.  The signup/login and read routes are
registered directly on `v1`, with no auth middleware on their chain. -/
def requiresAuth : Route → Bool
  | .createMessageR => true
  | .createReplyR => true
  | .uploadMediaR => true
  | _ => false

/-! ### Claims about the handlers -/

/-- C2: the gate authorizes a request with the validated claims' `UserID`;
a create-message or create-reply request's outcome is independent of any
client-supplied `user_id` body field (binding discards it); and whenever
a record is persisted (201), its `user_id` is the context user id the
gate resolved from the token. -/
theorem created_row_owner_is_subject (validate : String → Option Claims)
    (tok : String) (c : Claims) (ctxUserID messageID : String)
    (jsonOk insertOk : Bool) (body : CreateMessageBody)
    (mdb : List MessageRow) (rdb : List ReplyRow) (newID : String) (now : Nat)
    (hv : validate tok = some c) :
    AuthMiddleware validate ("Bearer " ++ tok) = .authorized c.userID c.email
    ∧ (∀ v, CreateMessage ctxUserID jsonOk insertOk { body with userId := v } mdb newID now
        = CreateMessage ctxUserID jsonOk insertOk { body with userId := none } mdb newID now)
    ∧ ((CreateMessage ctxUserID jsonOk insertOk body mdb newID now).1 = 201 →
        ∃ row, (CreateMessage ctxUserID jsonOk insertOk body mdb newID now).2 = mdb ++ [row]
          ∧ row.userID = ctxUserID)
    ∧ (∀ v, CreateReply messageID ctxUserID jsonOk insertOk { body with userId := v } rdb newID now
        = CreateReply messageID ctxUserID jsonOk insertOk { body with userId := none } rdb newID now)
    ∧ ((CreateReply messageID ctxUserID jsonOk insertOk body rdb newID now).1 = 201 →
        ∃ row, (CreateReply messageID ctxUserID jsonOk insertOk body rdb newID now).2 = rdb ++ [row]
          ∧ row.userID = ctxUserID) := by
  refine ⟨authMiddleware_authorized validate tok c hv, fun v => rfl, ?_, fun v => rfl, ?_⟩
  · intro h201
    unfold CreateMessage at h201 ⊢
    cases hb : bindCreateMessage jsonOk body with
    | none => rw [hb] at h201; simp at h201
    | some req =>
      rw [hb] at h201
      cases insertOk with
      | false => simp at h201
      | true => exact ⟨_, rfl, rfl⟩
  · intro h201
    unfold CreateReply at h201 ⊢
    cases hb : bindCreateReply jsonOk body with
    | none => rw [hb] at h201; simp at h201
    | some req =>
      rw [hb] at h201
      cases insertOk with
      | false => simp at h201
      | true => exact ⟨_, rfl, rfl⟩

/-- C2 witness: a concrete authorized request for user "u-9" whose body
smuggles `user_id = "attacker"`; the persisted rows are owned by
"u-9". -/
theorem created_row_owner_is_subject_witness :
    AuthMiddleware (fun _ => some ⟨"u-9", "e@x.com", 0, 86400⟩) ("Bearer " ++ "tok")
      = GateOutcome.authorized "u-9" "e@x.com"
    ∧ (CreateMessage "u-9" true true ⟨"hello", [], some "attacker"⟩ [] "m-2" 7
        = CreateMessage "u-9" true true ⟨"hello", [], none⟩ [] "m-2" 7)
    ∧ (∃ row, (CreateMessage "u-9" true true ⟨"hello", [], some "attacker"⟩ [] "m-2" 7).2
        = [] ++ [row] ∧ row.userID = "u-9")
    ∧ (CreateReply "m-1" "u-9" true true ⟨"hello", [], some "attacker"⟩ [] "m-2" 7
        = CreateReply "m-1" "u-9" true true ⟨"hello", [], none⟩ [] "m-2" 7)
    ∧ (∃ row, (CreateReply "m-1" "u-9" true true ⟨"hello", [], some "attacker"⟩ [] "m-2" 7).2
        = [] ++ [row] ∧ row.userID = "u-9") := by
  have h := created_row_owner_is_subject (fun _ => some ⟨"u-9", "e@x.com", 0, 86400⟩)
    "tok" ⟨"u-9", "e@x.com", 0, 86400⟩ "u-9" "m-1" true true
    ⟨"hello", [], some "attacker"⟩ [] [] "m-2" 7 rfl
  exact ⟨h.1, h.2.1 (some "attacker"), h.2.2.1 (by decide),
    h.2.2.2.1 (some "attacker"), h.2.2.2.2 (by decide)⟩

/-- C4 counterexample: a POST /messages body whose content is the
whitespace-only string "   " passes the `required` validation (which does
not trim) and is persisted with status 201, contrary to the claim that it
is rejected with 400 and nothing is persisted. -/
theorem blank_content_counterexample :
    (CreateMessage "u-1" true true ⟨"   ", [], none⟩ [] "m-1" 0).1 = 201
    ∧ (CreateMessage "u-1" true true ⟨"   ", [], none⟩ [] "m-1" 0).2 ≠ [] := by
  refine ⟨by decide, by decide⟩

/-- C4 (amended): a POST /messages request whose content is the empty
string is rejected with 400 and persists nothing; but any non-empty
content — whitespace-only content such as "   " included — passes the
validation and is persisted with 201. -/
theorem empty_content_rejected (ctxUserID : String) (b1 b2 : CreateMessageBody)
    (db : List MessageRow) (newID : String) (now : Nat)
    (h1 : b1.content = "") (h2 : b2.content ≠ "") :
    CreateMessage ctxUserID true true b1 db newID now = (400, db)
    ∧ (CreateMessage ctxUserID true true b2 db newID now).1 = 201
    ∧ (CreateMessage ctxUserID true true b2 db newID now).2
        = db ++ [⟨newID, ctxUserID, b2.content, b2.mediaURLs, now, now⟩] := by
  refine ⟨?_, ?_, ?_⟩
  · simp [CreateMessage, bindCreateMessage, h1]
  · simp [CreateMessage, bindCreateMessage, h2]
  · simp [CreateMessage, bindCreateMessage, h2]

/-- C4 amended-claim witness: content "" is rejected with 400, content
"   " is persisted with 201. -/
theorem empty_content_rejected_witness :
    CreateMessage "u-1" true true ⟨"", [], none⟩ [] "m-1" 0 = (400, [])
    ∧ (CreateMessage "u-1" true true ⟨"   ", [], none⟩ [] "m-1" 0).1 = 201
    ∧ (CreateMessage "u-1" true true ⟨"   ", [], none⟩ [] "m-1" 0).2
        = [] ++ [⟨"m-1", "u-1", "   ", [], 0, 0⟩] :=
  empty_content_rejected "u-1" ⟨"", [], none⟩ ⟨"   ", [], none⟩ [] "m-1" 0 rfl (by decide)

/-- C5 counterexample: a signup whose insert fails with a non-conflict
store failure (e.g. a broken connection) is answered with 409 Conflict,
not 500, contrary to the claim; the handler's own test simulates the
insert failing with `sql.ErrConnDone` and expects 409. -/
theorem signup_store_failure_counterexample :
    (Signup true "password123" "salt" .connFailure "s" 0).status = 409
    ∧ ¬ (Signup true "password123" "salt" .connFailure "s" 0).status = 500 := by
  refine ⟨rfl, by decide⟩

/-- C5 (amended): every failing insert into the Identity Store — a
uniqueness conflict and any other store failure alike — is reported as
409 Conflict with the text "email already exists"; the handler does not
inspect the error, so no insert failure surfaces as 500. -/
theorem signup_insert_failure_maps_to_conflict (password salt secret : String) (now : Nat) :
    (Signup true password salt .uniqueViolation secret now).status = 409
    ∧ (Signup true password salt .uniqueViolation secret now).err = some "email already exists"
    ∧ (Signup true password salt .connFailure secret now).status = 409
    ∧ (Signup true password salt .connFailure secret now).err = some "email already exists" :=
  ⟨rfl, rfl, rfl, rfl⟩

/-- C6: a login against an unknown email and a login against an existing
email with a wrong password both answer 401, and the two responses carry
the identical error text "invalid email or password". -/
theorem login_failures_indistinguishable (pw pw2 salt secret : String)
    (u : UserRow) (now : Nat)
    (hhash : u.passwordHash = HashPassword pw2 salt) (hne : pw ≠ pw2) :
    (Login true pw .noRows secret now).status = 401
    ∧ (Login true pw (.found u) secret now).status = 401
    ∧ (Login true pw .noRows secret now).err = (Login true pw (.found u) secret now).err
    ∧ (Login true pw .noRows secret now).err = some "invalid email or password" := by
  have hcp : CheckPassword pw u.passwordHash = false := by
    rw [hhash]
    simp [CheckPassword, HashPassword, BcryptDigest.mk.injEq]
    intro h
    exact hne h.symm
  simp [Login, hcp]

/-- C6 witness: the stored user "u-1" has the hash of "right"; logging in
with "wrong" against it and logging in against no user at all both give
401 with the same text. -/
theorem login_failures_indistinguishable_witness :
    (Login true "wrong" .noRows "s" 0).status = 401
    ∧ (Login true "wrong" (.found ⟨"u-1", "a@x.com", HashPassword "right" "s1", 0, 0⟩) "s" 0).status = 401
    ∧ (Login true "wrong" .noRows "s" 0).err
        = (Login true "wrong" (.found ⟨"u-1", "a@x.com", HashPassword "right" "s1", 0, 0⟩) "s" 0).err
    ∧ (Login true "wrong" .noRows "s" 0).err = some "invalid email or password" :=
  login_failures_indistinguishable "wrong" "right" "s1" "s"
    ⟨"u-1", "a@x.com", HashPassword "right" "s1", 0, 0⟩ 0 rfl (by decide)

/-- C9: the two read routes are public; the message listing is sorted by
`createdAt` descending and returns only persisted messages; the reply
listing is exactly the persisted replies of the requested message, sorted
by `createdAt` ascending (thread order). -/
theorem read_paths_public_and_ordered (mdb : List MessageRow)
    (rdb : List ReplyRow) (mid : String) :
    requiresAuth .listMessagesR = false
    ∧ requiresAuth .listRepliesR = false
    ∧ List.Sorted msgDesc (ListMessages mdb)
    ∧ (∀ m ∈ ListMessages mdb, m ∈ mdb)
    ∧ List.Sorted replyAsc (ListReplies mid rdb)
    ∧ (ListReplies mid rdb).Perm (rdb.filter (fun r => r.messageID == mid)) := by
  refine ⟨rfl, rfl, ?_, ?_, ?_, ?_⟩
  · exact List.Pairwise.sublist (List.take_sublist 50 _)
      (List.sorted_insertionSort msgDesc mdb)
  · intro m hm
    exact (List.perm_insertionSort msgDesc mdb).mem_iff.mp (List.mem_of_mem_take hm)
  · exact List.sorted_insertionSort replyAsc _
  · exact List.perm_insertionSort replyAsc _

/-- C9 witness: a concrete store of two messages and three replies; the
newer message is in the listing, and the replies of "m1" come back in
thread order. -/
theorem read_paths_public_and_ordered_witness :
    requiresAuth .listMessagesR = false
    ∧ requiresAuth .listRepliesR = false
    ∧ List.Sorted msgDesc (ListMessages
        [⟨"m1", "u1", "a", [], 5, 5⟩, ⟨"m2", "u2", "b", [], 9, 9⟩])
    ∧ (⟨"m2", "u2", "b", [], 9, 9⟩ : MessageRow)
        ∈ [⟨"m1", "u1", "a", [], 5, 5⟩, ⟨"m2", "u2", "b", [], 9, 9⟩]
    ∧ List.Sorted replyAsc (ListReplies "m1"
        [⟨"r1", "m1", "u1", "x", [], 3, 3⟩, ⟨"r2", "m1", "u2", "y", [], 1, 1⟩,
          ⟨"r3", "m2", "u1", "z", [], 2, 2⟩])
    ∧ (ListReplies "m1"
        [⟨"r1", "m1", "u1", "x", [], 3, 3⟩, ⟨"r2", "m1", "u2", "y", [], 1, 1⟩,
          ⟨"r3", "m2", "u1", "z", [], 2, 2⟩]).Perm
        ([⟨"r1", "m1", "u1", "x", [], 3, 3⟩, ⟨"r2", "m1", "u2", "y", [], 1, 1⟩,
          ⟨"r3", "m2", "u1", "z", [], 2, 2⟩].filter (fun r => r.messageID == "m1")) := by
  have h := read_paths_public_and_ordered
    [⟨"m1", "u1", "a", [], 5, 5⟩, ⟨"m2", "u2", "b", [], 9, 9⟩]
    [⟨"r1", "m1", "u1", "x", [], 3, 3⟩, ⟨"r2", "m1", "u2", "y", [], 1, 1⟩,
      ⟨"r3", "m2", "u1", "z", [], 2, 2⟩] "m1"
  exact ⟨h.1, h.2.1, h.2.2.1, h.2.2.2.1 ⟨"m2", "u2", "b", [], 9, 9⟩ (by decide),
    h.2.2.2.2.1, h.2.2.2.2.2⟩

/-- A store of 51 messages with creation times 0..50, used to exercise
the listing's LIMIT clause on a concrete input. -/
def manyMsgs : List MessageRow :=
  (List.range 51).map (fun i => ⟨"", "u", "c", [], i, i⟩)

/-- C10: the message listing returns at most 50 rows, and every persisted
message it omits is no newer than any row it returns (the 50 newest by
`createdAt` survive); the reply listing is unbounded — it returns as many
rows as there are replies of the requested message. -/
theorem listing_truncation (mdb : List MessageRow) (rdb : List ReplyRow) (mid : String) :
    (ListMessages mdb).length ≤ 50
    ∧ (∀ m ∈ mdb, m ∉ ListMessages mdb →
        ∀ r ∈ ListMessages mdb, m.createdAt ≤ r.createdAt)
    ∧ (ListReplies mid rdb).length
        = (rdb.filter (fun r => r.messageID == mid)).length := by
  refine ⟨List.length_take_le 50 _, ?_,
    (List.perm_insertionSort replyAsc _).length_eq⟩
  intro m hm hnot r hr
  have hms : m ∈ List.insertionSort msgDesc mdb :=
    (List.perm_insertionSort msgDesc mdb).mem_iff.mpr hm
  have hsplit : m ∈ (List.insertionSort msgDesc mdb).take 50
      ∨ m ∈ (List.insertionSort msgDesc mdb).drop 50 := by
    rw [← List.mem_append, List.take_append_drop]
    exact hms
  have hdrop : m ∈ (List.insertionSort msgDesc mdb).drop 50 := by
    rcases hsplit with h | h
    · exact absurd h hnot
    · exact h
  have hsorted : List.Pairwise msgDesc
      ((List.insertionSort msgDesc mdb).take 50 ++ (List.insertionSort msgDesc mdb).drop 50) := by
    rw [List.take_append_drop]
    exact List.sorted_insertionSort msgDesc mdb
  exact (List.pairwise_append.mp hsorted).2.2 r hr m hdrop

/-- C10 witness: with 51 persisted messages (times 0..50) the listing has
at most 50 rows; the omitted oldest message (time 0) is no newer than the
returned newest one (time 50); an empty reply store lists completely. -/
theorem listing_truncation_witness :
    (ListMessages manyMsgs).length ≤ 50
    ∧ (⟨"", "u", "c", [], 0, 0⟩ : MessageRow).createdAt
        ≤ (⟨"", "u", "c", [], 50, 50⟩ : MessageRow).createdAt
    ∧ (ListReplies "m1" []).length
        = (List.filter (fun r : ReplyRow => r.messageID == "m1") []).length := by
  have h := listing_truncation manyMsgs [] "m1"
  exact ⟨h.1, h.2.1 ⟨"", "u", "c", [], 0, 0⟩ (by decide) (by decide)
    ⟨"", "u", "c", [], 50, 50⟩ (by decide), h.2.2⟩

end Why
